import Mathlib

/-!
Verification development for the SEED (System for Environmental Entity
Distribution) engine of src/DarkMod/SEED.cpp.

Machine integers are modelled as `Nat` reduced `% 2^32` where the C code
relies on 32-bit wrap-around; C floats are modelled as `ℚ` (every value the
relevant code paths produce from the custom RNG is an exact dyadic rational);
fallible external calls are modelled as `Option` results supplied by an
environment record of deterministic oracles.
-/

namespace Seed

/-! ## Deterministic RNG (SEED.cpp lines 603-622)

`Seed::RandomSeed` advances `m_iSeed_2` by the LCG `1103515245 * s + 12345`
and returns the new state masked with `0x7FFFFFF` (27 low bits).
`Seed::RandomFloat` advances `m_iSeed` by the LCG `1664525 * s + 1013904223`
and assembles an IEEE-754 float in `[1,2)` from the low 23 bits, subtracting
`1.0`; the result is exactly `(state % 2^23) / 2^23` as a rational.
The IEEE constants live in the missing SEED.h header; the mantissa-mask
reading below is modelled from the spec sentence "produces floats by
assembling an IEEE-754 bit pattern in [1,2) and subtracting 1". -/

/-- Advance of `m_iSeed_2` (SEED.cpp line 604), 32-bit wrap-around. -/
def randomSeedNext (s2 : Nat) : Nat := (1103515245 * s2 + 12345) % 4294967296

/-- Return value and new state of `Seed::RandomSeed` (lines 603-606):
the advanced state masked with `0x7FFFFFF`. -/
def randomSeed (s2 : Nat) : Nat × Nat :=
  let s2' := randomSeedNext s2
  (s2' % 134217728, s2')

/-- Advance of `m_iSeed` (SEED.cpp line 619), 32-bit wrap-around. -/
def randomFloatNext (s : Nat) : Nat := (1664525 * s + 1013904223) % 4294967296

/-- Return value and new state of `Seed::RandomFloat` (lines 617-622): a
rational in `[0,1)` built from the 23 mantissa bits of the advanced state. -/
def randomFloat (s : Nat) : ℚ × Nat :=
  let s' := randomFloatNext s
  (((s' % 8388608 : Nat) : ℚ) / 8388608, s')

/-! ## Instance flags (claims C1 and C10)

The flag constants are declared in SEED.h, which is not part of the
source tree here. Modelled from the spec: "a bit-flag set
{exists, spawned, hidden, is-composite}" — four distinct single bits.
Every theorem below depends only on the bits being distinct and non-zero. -/

/-- Modelled from the spec: the `hidden` bit of the instance flag set
(constant `SEED_ENTITY_HIDDEN` from the missing SEED.h). -/
def SEED_ENTITY_HIDDEN : Nat := 1

/-- Modelled from the spec: the `exists` bit of the instance flag set
(constant `SEED_ENTITY_EXISTS` from the missing SEED.h). -/
def SEED_ENTITY_EXISTS : Nat := 2

/-- Modelled from the spec: the `spawned` bit of the instance flag set
(constant `SEED_ENTITY_SPAWNED` from the missing SEED.h). -/
def SEED_ENTITY_SPAWNED : Nat := 4

/-- Modelled from the spec: the `is-composite` bit of the instance flag set
(constant `SEED_ENTITY_PSEUDO` from the missing SEED.h). -/
def SEED_ENTITY_PSEUDO : Nat := 8

/-- C logical negation `!x`: `0` for non-zero `x`, `1` for `0`. The cull
code applies it to a flag constant (SEED.cpp line 3338). -/
def cLogicalNot (x : Nat) : Nat := if x = 0 then 1 else 0

/-- Flag word given to a freshly placed instance (SEED.cpp line 2541):
`SeedEntity.flags = SEED_ENTITY_HIDDEN`. -/
def placedFlags : Nat := SEED_ENTITY_HIDDEN

/-- Flag update of `Seed::SpawnEntity` on success (SEED.cpp line 3279):
`ent->flags = SEED_ENTITY_SPAWNED + SEED_ENTITY_EXISTS + (ent->flags & SEED_ENTITY_PSEUDO)`. -/
def spawnedFlags (f : Nat) : Nat :=
  SEED_ENTITY_SPAWNED + SEED_ENTITY_EXISTS + (f &&& SEED_ENTITY_PSEUDO)

/-- Flag update of `Seed::CullEntity` (SEED.cpp lines 3337-3338):
`ent->flags += SEED_ENTITY_HIDDEN; ent->flags &= (! SEED_ENTITY_EXISTS);`.
The second line uses C logical negation `!`, not bitwise `~`. -/
def culledFlags (f : Nat) : Nat :=
  (f + SEED_ENTITY_HIDDEN) &&& cLogicalNot SEED_ENTITY_EXISTS

/-- Bit test on a flag word. -/
def hasFlag (f bit : Nat) : Bool := f &&& bit ≠ 0

/-- The C1 invariant predicate: exactly one of the `hidden` and `exists`
bits is set. -/
def exactlyOneHiddenExists (f : Nat) : Bool :=
  xor (hasFlag f SEED_ENTITY_HIDDEN) (hasFlag f SEED_ENTITY_EXISTS)

/-! ## Transform capture and re-spawn (claims C1 and C10)

`Seed::SpawnEntity` (lines 3115-3153) spawns the live object at the
record's `origin` and sets its axis from the record's `angles`;
`Seed::CullEntity` (lines 3303-3312) captures the live object's current
origin and axis angles back into the record before destroying it.
Orientation is modelled by the Euler-angle triple the record stores; the
conversions `idAngles::ToMat3` / `idMat3::ToAngles` compose to the
identity on the rotation they denote, so the live axis is represented by
its angle triple. -/

/-- Rational 3-vector standing in for `idVec3`. -/
structure V3 where
  x : ℚ
  y : ℚ
  z : ℚ
deriving DecidableEq, Repr

instance : Add V3 := ⟨fun a b => ⟨a.x + b.x, a.y + b.y, a.z + b.z⟩⟩
instance : Sub V3 := ⟨fun a b => ⟨a.x - b.x, a.y - b.y, a.z - b.z⟩⟩
instance : Inhabited V3 := ⟨⟨0, 0, 0⟩⟩

/-- Euler-angle triple standing in for `idAngles` (pitch, yaw, roll). -/
structure AnglesQ where
  pitch : ℚ
  yaw : ℚ
  roll : ℚ
deriving DecidableEq, Repr

instance : Inhabited AnglesQ := ⟨⟨0, 0, 0⟩⟩

/-- Per-instance record `seed_entity_t` (the fields claims C1/C10 use):
placed origin and angles, flag word, live-entity handle. -/
structure ERec where
  origin : V3
  angles : AnglesQ
  flags : Nat
  entity : Nat
deriving DecidableEq, Repr

/-- Transform of the live game object backing a spawned instance. -/
structure Live where
  origin : V3
  angles : AnglesQ
deriving DecidableEq, Repr

/-- Live-object transform produced by `Seed::SpawnEntity` (lines 3118 and
3153): the object spawns at `ent->origin` and its axis is set to
`ent->angles.ToMat3()`. -/
def spawnLive (r : ERec) : Live := ⟨r.origin, r.angles⟩

/-- Record update of `Seed::SpawnEntity` on success (lines 3150 and 3279):
stores the live entity number and sets the spawned/exists flags, keeping
only the pseudo bit. -/
def spawnRecUpd (r : ERec) (num : Nat) : ERec :=
  { r with flags := spawnedFlags r.flags, entity := num }

/-- Record update of `Seed::CullEntity` (lines 3311-3339): captures the
live object's current origin and axis angles into the record, applies the
cull flag update and clears the handle. -/
def cullRecUpd (r : ERec) (l : Live) : ERec :=
  { r with origin := l.origin, angles := l.angles,
           flags := culledFlags r.flags, entity := 0 }

/-! ## Falloff parsing (claim C4, SEED.cpp lines 742-788)

`Seed::ParseFalloff` maps the resolved `seed_falloff` string to a numeric
falloff kind; for `power`/`root` it additionally reads and clamps the shape
factor into `*func_a`. The model returns (kind, written factor if any,
whether a diagnostic was emitted). -/

/-- Model of `Seed::ParseFalloff`: argument `falloff` is the resolved
string value of the `seed_falloff` key, `funcA` the resolved value of
`seed_func_a`. Returns the falloff code, the value written through
`func_a` (`none` when the code returns before touching it), and whether a
`gameLocal.Warning` diagnostic was emitted. -/
def parseFalloff (falloff : String) (funcA : ℚ) : Nat × Option ℚ × Bool :=
  if falloff = "none" then (0, none, false)
  else if falloff = "cutoff" then (1, none, false)
  else if falloff = "linear" then (4, none, false)
  else if falloff = "func" then (5, none, false)
  else
    let rc : Nat := if falloff = "power" then 2 else if falloff = "root" then 3 else 0
    if rc = 0 then (0, none, true)
    else if funcA < 2 then (rc, some 2, true)
    else (rc, some funcA, false)

/-- The names `Seed::ParseFalloff` actually recognizes (its warning
message lists exactly these: "expected one of none, cutoff, power, root,
linear or func"). -/
def falloffNames : List String := ["none", "cutoff", "power", "root", "linear", "func"]

/-! ## Average footprint density divisor (claim C5)

In `Seed::AddClassFromEntity` the local `fImgDensity` is initialised to
`0.0f` (line 800), is recomputed and clamped to at least `0.001` only
inside the `imgmap > 0` branch (lines 1059-1148), and the class's average
footprint is then unconditionally computed as
`SeedClass.avgSize = size / (fBaseDensity * fImgDensity * fDensity)`
(line 1376) with `fDensity`/`fBaseDensity` clamped to at least
`0.000001` (lines 1365-1370). -/

/-- Value of `fImgDensity` at line 1376: for a class with a density image
the computed mean (clamped below by `0.001`, lines 1142-1147), for a class
without one the initial `0.0` from line 800. `mapMean` is the mean sample
value (after the optional inversion of lines 1134-1137) reported by the
image map manager. -/
def fImgDensityFinal (hasImage : Bool) (mapMean : ℚ) : ℚ :=
  if hasImage then (if mapMean < 1/1000 then 1/1000 else mapMean) else 0

/-- Clamping of the per-class and base densities (lines 1365-1370):
`std::max(fMin, d)` with `fMin = 0.000001f`. -/
def densityClamp (d : ℚ) : ℚ := if (1/1000000 : ℚ) < d then d else 1/1000000

/-- The divisor of line 1376: `fBaseDensity * fImgDensity * fDensity`,
with the two density spawnargs already clamped. -/
def avgSizeDivisor (hasImage : Bool) (mapMean density baseDensity : ℚ) : ℚ :=
  densityClamp baseDensity * fImgDensityFinal hasImage mapMean * densityClamp density

/-! ## Placement retry loop (claim C6, SEED.cpp lines 1916-2527)

The per-instance loop is `int tries = 0; while (tries++ < MAX_TRIES) {...}`
with `MAX_TRIES = 8` (line 75); an accepted attempt executes `break`
(line 2519), every rejection `continue`s the while loop, and after the
loop `if (tries >= MAX_TRIES) continue;` (line 2527) skips the instance
(no record is appended). The geometric accept/reject outcome of attempt
number `k` (1-based) is abstracted as `accept k`. -/

/-- Loop kernel for `while (tries++ < MAX_TRIES)`: `fuel` is the number
of loop iterations still allowed (`MAX_TRIES - tries`, kept in lockstep
with `t = tries`). With `fuel = 0` the condition `tries++ < MAX_TRIES`
fails and leaves `tries = t + 1`; otherwise the body for attempt number
`t + 1` runs, and `break` on acceptance leaves `tries = t + 1`. -/
def tryLoopTriesAux (accept : Nat → Bool) : Nat → Nat → Nat
  | 0, t => t + 1
  | fuel + 1, t => if accept (t + 1) then t + 1 else tryLoopTriesAux accept fuel (t + 1)

/-- Final value of `tries` after the placement retry loop of line 1919
(`int tries = 0; while (tries++ < MAX_TRIES)` with `MAX_TRIES = 8`). -/
def tryLoopTries (accept : Nat → Bool) : Nat := tryLoopTriesAux accept 8 0

/-- Whether the instance is recorded: the code after the loop runs only
when the skip `if (tries >= MAX_TRIES) continue;` (line 2527) does not
fire. -/
def tryLoopPlaced (accept : Nat → Bool) : Bool :=
  tryLoopTries accept < 8

/-! ## Bunching neighbor selection (claim C7, SEED.cpp lines 1925-1965)

When bunching triggers, the code builds `BunchEntities`, the list of
indices of already-placed entities whose `classIdx` equals the class `i`
being placed (lines 1944-1951), draws
`int bunchTarget = (float)BunchEntities.Num() * RandomFloat();`
(line 1953) and then reads `m_Entities[ bunchTarget ].origin`
(line 1965) — indexing the full entity list with an index drawn from the
range of the filtered list. Entities are represented by their `classIdx`. -/

/-- The `BunchEntities` list (lines 1944-1951): indices `e` of already
placed entities with `classIdx == i`. -/
def bunchEntities (entClasses : List Int) (i : Int) : List Nat :=
  (List.range entClasses.length).filter fun e => entClasses.getD e (-1) = i

/-- C truncation of a rational toward zero (C float-to-int conversion):
quotient of the reduced numerator by the denominator. -/
def truncQ (q : ℚ) : Int := q.num.tdiv q.den

/-- The `bunchTarget` computation (line 1953): C truncation of
`(float)BunchEntities.Num() * RandomFloat()` to `int`. -/
def bunchTarget (entClasses : List Int) (i : Int) (rf : ℚ) : Nat :=
  (truncQ (((bunchEntities entClasses i).length : ℚ) * rf)).toNat

/-- Class index of the neighbor the polar offset is sampled around
(line 1965): the code reads `m_Entities[ bunchTarget ]`, not
`m_Entities[ BunchEntities[ bunchTarget ] ]`. -/
def bunchNeighborClass (entClasses : List Int) (i : Int) (rf : ℚ) : Int :=
  entClasses.getD (bunchTarget entClasses i rf) (-1)

/-! ## Target-count computation (claim C8, SEED.cpp lines 1425-1519)

`Seed::ComputeEntityCount` assigns each non-pseudo, non-watch class a
target count: with an overall cap (`max_entities > 0`) a score-proportional
share `std::max(1, (max_entities * score) / iScoreSum)` (C integer
division, line 1483), otherwise an area/density estimate; per-class caps
clamp; with an overall cap the final total is the cap itself (line 1508). -/

/-- Model of `Seed::LODBIAS` (lines 1393-1418): piecewise rescaling of the
GUI `lod_bias` setting. -/
def lodBIAS (lodBias : ℚ) : ℚ :=
  if lodBias < 4/5 then
    (if lodBias < 7/10 then lodBias * (14/10) else lodBias * (12/10))
  else if lodBias > 1 then
    (if lodBias > 2 then 9/10 else 1) + (lodBias - 1) / 4
  else lodBias

/-- Per-class data consumed by `Seed::ComputeEntityCount`. -/
structure CClass where
  score : Int
  pseudo : Bool
  watch : Bool
  maxEntities : Int
  avgSize : ℚ
deriving DecidableEq, Repr

/-- Count for one class (lines 1479-1498): score-proportional share with
floor 1 when an overall cap is set, else the area estimate, then the
per-class cap. `maxEnt` is the (possibly LOD-scaled) overall cap. -/
def classNewNum (maxEnt : Int) (iScoreSum : Int) (fArea : ℚ) (c : CClass) : Int :=
  let share := Int.tdiv (maxEnt * c.score) iScoreSum
  let newNum : Int :=
    if maxEnt > 0 then (if 1 < share then share else 1)
    else if c.avgSize > 0 then truncQ (fArea / c.avgSize) else 0
  if c.maxEntities > 0 ∧ newNum > c.maxEntities then c.maxEntities else newNum

/-- Model of `Seed::ComputeEntityCount` (lines 1425-1519). Returns the
per-class counts (in class order, `none` for pseudo/watch classes that are
skipped) and the final `m_iNumEntities`. `maxEnt0` is the raw
`max_entities` spawnarg, `lodScalingLimit` the `lod_scaling_limit`
spawnarg (default 10), `lodBias` the GUI setting, `density` the `density`
spawnarg and `sizeX`/`sizeY` the bounds size. -/
def computeEntityCount (density : ℚ) (lodScaleDensity : Bool) (lodBias : ℚ)
    (sizeX sizeY : ℚ) (maxEnt0 : Int) (lodScalingLimit : ℚ)
    (classes : List CClass) : List (Option Int) × Int :=
  let fDensity0 := if lodScaleDensity then density * lodBIAS lodBias else density
  let fDensity := if fDensity0 < 1/100000 then (1/100000 : ℚ) else fDensity0
  let fArea := (sizeX + 1) * (sizeY + 1) * fDensity
  let maxEnt : Int :=
    if maxEnt0 > 0 ∧ (maxEnt0 : ℚ) > lodScalingLimit then
      truncQ ((maxEnt0 : ℚ) * lodBIAS lodBias)
    else maxEnt0
  let iScoreSum : Int :=
    if maxEnt0 > 0 then (classes.map (·.score)).sum else 0
  let counts : List (Option Int) := classes.map fun c =>
    if c.pseudo ∨ c.watch then none
    else some (classNewNum maxEnt iScoreSum fArea c)
  let total : Int := (counts.map (fun o => o.getD 0)).sum
  (counts, if maxEnt0 > 0 then maxEnt else total)

/-! ## Spacing and collision rejection (claim C9, SEED.cpp lines 2471-2513)

The expansion distance is the distribution-wide `spacing` spawnarg unless
the class sets a non-zero `seed_spacing`, which then replaces (not
maximises with) it (lines 2472-2476). The rejection loop walks all
previously accepted instances, testing the spacing-expanded axis-aligned
bounds first and, only on an intersection, the spacing-expanded oriented
boxes; any pair of hits rejects the candidate with `break` (lines
2490-2508). The two geometric intersection tests against previous
instance `k` are abstracted as the predicates `boundsHit`/`boxHit`. -/

/-- The `use_spacing` computation (lines 2472-2476). -/
def useSpacing (spacing classSpacing : ℚ) : ℚ :=
  if classSpacing ≠ 0 then classSpacing else spacing

/-- The collision loop over previously accepted instances `ks`
(lines 2483-2508): the oriented-box test for `k` runs only when the
bounds test for `k` hits; the first double hit sets `collides` and
breaks. -/
def spacingCollides (boundsHit boxHit : Nat → Bool) : List Nat → Bool
  | [] => false
  | k :: rest =>
    if boundsHit k then
      if boxHit k then true else spacingCollides boundsHit boxHit rest
    else spacingCollides boundsHit boxHit rest

/-! ## Combiner capacity step (claim C3, SEED.cpp lines 2695-3039)

For a seed entity `i`, `Seed::CombineEntities` first appends the seed's
own zero-offset record to `sortedOffsets` (lines 2806-2822), then scans
all later entities, appending a record for every merge candidate — same
class, same skin, same PVS when the distribution spans several, and within
the squared combine distance (lines 2832-2917) — and counting them in
`merged`. Only when `merged > maxModelCount` (line 2955) does it sort all
records by squared offset length, restore the class index of every record
past the first `maxModelCount`, and truncate to `maxModelCount` records
(lines 2955-2970); the remaining records become `PseudoClass.offsets`
(lines 2972-2977). -/

/-- Entity data consumed by the merge-candidate scan. -/
structure CEnt where
  classIdx : Int
  skinIdx : Nat
  pvs : Int
  origin : V3
deriving DecidableEq, Repr

instance : Inhabited CEnt := ⟨⟨-1, 0, 0, default⟩⟩

/-- Squared Euclidean distance (`idVec3::LengthSqr` of the difference). -/
def distSq (a b : V3) : ℚ :=
  (a.x - b.x) * (a.x - b.x) + (a.y - b.y) * (a.y - b.y) + (a.z - b.z) * (a.z - b.z)

/-- Merge-candidate scan for seed entity `i` (lines 2832-2866): indices
`j > i` whose entity is not already merged, has the same class and skin as
entity `i`, lies in the same PVS (when `multiPVS`), and is within the
squared combine distance, paired with their squared offset length. -/
def mergeCandidates (ents : List CEnt) (i : Nat) (maxD2 : ℚ) (multiPVS : Bool) :
    List (Nat × ℚ) :=
  let eI := ents.getD i default
  ((List.range ents.length).filter fun j =>
      i < j ∧
      (ents.getD j default).classIdx ≠ -1 ∧
      (ents.getD j default).classIdx = eI.classIdx ∧
      (ents.getD j default).skinIdx = eI.skinIdx ∧
      (¬multiPVS ∨ (ents.getD j default).pvs = eI.pvs) ∧
      distSq (ents.getD j default).origin eI.origin ≤ maxD2).map
    fun j => (j, distSq (ents.getD j default).origin eI.origin)

/-- Capacity-bounding step for seed `i` (lines 2806-2977). Input
`cands` is the candidate list (entity index, squared offset length),
`maxModelCount` the renderer-reported `GetMaxModelCount` result. Returns
the final offset-record list (entity index, squared offset length,
seed's zero record included) and the entity indices whose class index is
restored for a later pass. -/
def combineCapacity (i : Nat) (cands : List (Nat × ℚ)) (maxModelCount : Nat) :
    List (Nat × ℚ) × List Nat :=
  let sortedOffsets : List (Nat × ℚ) := (i, 0) :: cands
  let merged := cands.length
  if merged > maxModelCount then
    let sorted := List.insertionSort (fun a b => a.2 ≤ b.2) sortedOffsets
    (sorted.take maxModelCount, (sorted.drop maxModelCount).map (·.1))
  else (sortedOffsets, [])

/-! ## The Placement Engine (claim C2, `Seed::PrepareEntities`, lines 1777-2623)

Full functional embedding of the placement pass. The RNG is threaded
explicitly in source order; the external collaborators (idMath::Pow and
Sqrt, idPolar3::ToVec3, image-map sampling, ground traces, oriented-box
geometry, the watched-brethren entity scan) are deterministic oracle
functions collected in `PEnv` — they are functions of their arguments
only, exactly as the game world is fixed during one distribution pass. -/

/-- Fields of `seed_class_t` that `Seed::PrepareEntities` reads. -/
structure PClass where
  classname : String
  pseudo : Bool
  watch : Bool
  seed : Nat
  maxEntities : Int
  numEntities : Int
  bunching : ℚ
  sizeX : ℚ
  sizeY : ℚ
  sizeZ : ℚ
  spacing : ℚ
  nocollide : Nat
  falloff : Nat
  funcA : ℚ
  func_s : ℚ
  func_x : ℚ
  func_y : ℚ
  func_min : ℚ
  func_max : ℚ
  func_Xt : Nat
  func_Yt : Nat
  func_f : Nat
  floor : Bool
  originZ : ℚ
  z_invert : Bool
  z_min : ℚ
  z_max : ℚ
  z_fadein : ℚ
  z_fadeout : ℚ
  sink_min : ℚ
  sink_max : ℚ
  offset : V3
  noinhibit : Bool
  defaultProb : ℚ
  materials : List (String × ℚ)
  imgmap : Nat
  map_invert : Bool
  map_scale_x : ℚ
  map_scale_y : ℚ
  map_ofs_x : ℚ
  map_ofs_y : ℚ
  color_min : V3
  color_max : V3
  scale_min : V3
  scale_max : V3
  skins : List Nat

instance : Inhabited PClass :=
  ⟨{ classname := "", pseudo := false, watch := false, seed := 0,
     maxEntities := 0, numEntities := 0, bunching := 0,
     sizeX := 1, sizeY := 1, sizeZ := 1, spacing := 0, nocollide := 0,
     falloff := 0, funcA := 0, func_s := 0, func_x := 0, func_y := 0,
     func_min := 0, func_max := 1, func_Xt := 1, func_Yt := 1, func_f := 0,
     floor := false, originZ := 0, z_invert := false,
     z_min := -1000000, z_max := 1000000, z_fadein := 0, z_fadeout := 0,
     sink_min := 0, sink_max := 0, offset := default, noinhibit := false,
     defaultProb := 1, materials := [], imgmap := 0, map_invert := false,
     map_scale_x := 1, map_scale_y := 1, map_ofs_x := 0, map_ofs_y := 0,
     color_min := default, color_max := default,
     scale_min := ⟨1, 1, 1⟩, scale_max := ⟨1, 1, 1⟩, skins := [] }⟩

/-- Fields of `seed_inhibitor_t` that the placement pass reads. -/
structure PInhib where
  originX : ℚ
  originY : ℚ
  sizeX : ℚ
  sizeY : ℚ
  falloff : Nat
  factor : ℚ
  inhibit_only : Bool
  classnames : List String
deriving DecidableEq, Repr

/-- One placed instance (`seed_entity_t` as filled by the placement pass):
position, orientation, color, scale, skin index, class index and flags. -/
structure PInst where
  origin : V3
  angles : AnglesQ
  color : V3
  scale : V3
  skinIdx : Nat
  classIdx : Nat
  flags : Nat
deriving DecidableEq, Repr

instance : Inhabited PInst :=
  ⟨{ origin := default, angles := default, color := default,
     scale := default, skinIdx := 0, classIdx := 0, flags := 0 }⟩

/-- Distribution-level inputs of the placement pass: target count
`m_iNumEntities`, the `spacing` spawnarg, `m_origin`, the bounds size,
the rotation ranges of lines 1913-1914 (read from the SEED's own
spawnargs, hence constant across classes) and the inhibitor table. -/
structure PCfg where
  numEntities : Nat
  spacing : ℚ
  seedOrigin : V3
  sizeX : ℚ
  sizeY : ℚ
  sizeZ : ℚ
  rotateMin : AnglesQ
  rotateMax : AnglesQ
  inhibitors : List PInhib

/-- Deterministic oracles for the external collaborators of the placement
pass. `pow`/`sqrtQ` stand for `idMath::Pow`/`idMath::Sqrt`; `polar` for
`idPolar3(r, 0, phi).ToVec3()`; `mapValue` for
`CImageMapManager::GetMapDataAt`; `surfaceDescr` for the downward
`TracePoint` of lines 2146-2190 (surface-type description of the hit, or
`none` when the trace hits nothing); `floorTrace` for the downward
`TraceBounds` of lines 2260-2287 (hit end position, or `none`);
`containsPoint` for `idBox::ContainsPoint` of the SEED box;
`rotAxis` for the multiplication by the SEED axis (line 2124);
`boxIntersectsInhibitor` for the `testBox.IntersectsBox` test of line
2386; `collides` for the bounds/box two-stage scan of lines 2483-2508
against the previously accepted instances; `watchEntities` for the
watched-brethren game-entity scan of lines 2578-2615. -/
structure PEnv where
  pow : ℚ → ℚ → ℚ
  sqrtQ : ℚ → ℚ
  polar : ℚ → ℚ → V3
  mapValue : Nat → ℚ → ℚ → Nat
  surfaceDescr : V3 → ℚ → Option String
  floorTrace : V3 → ℚ → Option V3
  containsPoint : V3 → Bool
  rotAxis : V3 → V3
  boxIntersectsInhibitor : V3 → AnglesQ → Nat → Bool
  collides : V3 → AnglesQ → ℚ → List PInst → Bool
  watchEntities : Nat → List PInst

/-- C `fmod(x, 1.0)`: subtract the integral part truncated toward zero. -/
def qfmodOne (x : ℚ) : ℚ := x - truncQ x

/-- The double-fmod wrap of lines 2104-2105 mapping into `[0,1)`. -/
def wrap01 (x : ℚ) : ℚ := qfmodOne (qfmodOne x + 1)

/-- Model of `idMath::ClampFloat(min, max, val)`. -/
def clampQ (lo hi x : ℚ) : ℚ := if x < lo then lo else if hi < x then hi else x

/-- The rejection-sampling disk loop of lines 1988-2034 for falloff kinds
1-4 (at most 16 rounds): draw `x,y` in the square, reject outside the
unit disk, accept immediately for `cutoff`, otherwise accept when a fresh
uniform draw exceeds the falloff probability of the squared radius.
Returns the final `p`, the last drawn `x`, `y` and the RNG state. -/
def diskLoop (env : PEnv) (cls : PClass) (factor : ℚ) :
    Nat → Nat → ℚ → ℚ → ℚ → ℚ × ℚ × ℚ × Nat
  | 0, s, p, x, y => (p, x, y, s)
  | fuel + 1, s, p, _, _ =>
    let (xr, s1) := randomFloat s
    let x := 2 * (xr - 1/2)
    let (yr, s2) := randomFloat s1
    let y := 2 * (yr - 1/2)
    let d := x * x + y * y
    if d > 1 then diskLoop env cls factor fuel s2 p x y
    else if cls.falloff = 1 then (1, x, y, s2)
    else
      let p' := if cls.falloff = 4 then d else env.pow d factor
      let (rr, s3) := randomFloat s2
      if rr > p' then (1, x, y, s3)
      else diskLoop env cls factor fuel s3 0 x y

/-- Candidate-position sampling of one attempt (lines 1923-2051):
the bunching branch (lines 1925-1970, including the neighbor lookup
`m_Entities[ bunchTarget ]` exactly as written), the disk-sampling branch
for falloff kinds 1-4, and the uniform-in-footprint branch for `none` and
`func`. Returns `none` when the disk loop fails (line 2038). -/
def samplePosition (env : PEnv) (cfg : PCfg) (cls : PClass) (i : Nat)
    (ents : List PInst) (s : Nat) : Option V3 × Nat :=
  let falloffSample : Nat → Option V3 × Nat := fun s =>
    if 0 < cls.falloff ∧ cls.falloff < 5 then
      let factor := if cls.falloff = 3 then 1 / cls.funcA else cls.funcA
      let (p, x, y, s') := diskLoop env cls factor 16 s 0 0 0
      if p < 1/1000000 then (none, s')
      else (some ⟨x * cfg.sizeX / 2, y * cfg.sizeY / 2, 0⟩, s')
    else
      let (xr, s1) := randomFloat s
      let (yr, s2) := randomFloat s1
      (some ⟨(xr - 1/2) * cfg.sizeX, (yr - 1/2) * cfg.sizeY, 0⟩, s2)
  if ents.length > 0 then
    let (bf, s1) := randomFloat s
    if bf < cls.bunching then
      let distance := env.sqrtQ (cls.sizeX * cls.sizeX + cls.sizeY * cls.sizeY)
          + cls.spacing * 2
      let bunch := (List.range ents.length).filter
          fun e => (ents.getD e default).classIdx = i
      let (rf1, s2) := randomFloat s1
      let target := (truncQ ((bunch.length : ℚ) * rf1)).toNat
      let (rf2, s3) := randomFloat s2
      let (rf3, s4) := randomFloat s3
      let pol := env.polar (2 * distance + rf2 * distance / 3) (rf3 * 360)
      let base := (ents.getD target default).origin
      (some (pol + base - cfg.seedOrigin), s4)
    else falloffSample s1
  else falloffSample s

/-- The inhibitor scan of lines 2381-2463: `inhibited` lives across
iterations; each intersecting inhibitor recomputes it from its allow/deny
class list and, when it would inhibit and has a falloff, from the
falloff-weighted draw — which `break`s with rejection when the draw
exceeds the acceptance probability. -/
def inhibitLoop (env : PEnv) (cls : PClass) (cand : V3) (ang : AnglesQ) :
    List (Nat × PInhib) → Bool → Nat → Bool × Nat
  | [], inhibited, s => (inhibited, s)
  | (k, ih) :: rest, inhibited, s =>
    if env.boxIntersectsInhibitor cand ang k then
      let inh2 := if ih.classnames.length > 0 then
          (if cls.classname ∈ ih.classnames then ih.inhibit_only else !ih.inhibit_only)
        else true
      if inh2 ∧ ih.falloff > 0 then
        let factor := if ih.falloff = 3 then 1 / ih.factor else ih.factor
        let x := 2 * (cand.x - ih.originX) / ih.sizeX
        let y := 2 * (cand.y - ih.originY) / ih.sizeY
        let d := x * x + y * y
        if d < 1 then
          let p := if ih.falloff = 1 then 0
                   else if ih.falloff = 4 then d else env.pow d factor
          let (ri, s1) := randomFloat s
          if ri > p then (true, s1)
          else inhibitLoop env cls cand ang rest false s1
        else inhibitLoop env cls cand ang rest false s
      else inhibitLoop env cls cand ang rest inh2 s
    else inhibitLoop env cls cand ang rest inhibited s

/-- One full placement attempt (the body of the `while (tries++ < 8)`
loop, lines 1921-2524): candidate sampling, the `func`-falloff and
image-map probability factors, rotation into world space, the material
probe, the probability draw, flooring, the z-band re-check with the same
draw, sink, offset correction, random rotation, the SEED-box containment
test, the inhibitor scan and the spacing/collision scan. Returns the
accepted position and angles, or `none` for a rejected attempt, plus the
advanced RNG state. -/
def attemptOnce (env : PEnv) (cfg : PCfg) (cls : PClass) (i : Nat)
    (ents : List PInst) (s : Nat) : Option (V3 × AnglesQ) × Nat :=
  match samplePosition env cfg cls i ents s with
  | (none, s1) => (none, s1)
  | (some cand0, s1) =>
    let funcStep : Option ℚ :=
      if cls.falloff = 5 then
        let x0 := cand0.x / cfg.sizeX + 1/2
        let x := if cls.func_Xt = 2 then x0 * x0 else x0
        let y0 := cand0.y / cfg.sizeY + 1/2
        let y := if cls.func_Yt = 2 then y0 * y0 else y0
        let p := cls.func_s * (x * cls.func_x + y * cls.func_y + cls.funcA)
        if cls.func_f = 0 then
          (if p < cls.func_min ∨ p > cls.func_max then none else some 1)
        else some (clampQ cls.func_min cls.func_max p)
      else some 1
    match funcStep with
    | none => (none, s1)
    | some prob1 =>
      let imgStep : Option ℚ :=
        if cls.imgmap ≠ 0 then
          let x := wrap01 (cls.map_scale_x * (cand0.x / cfg.sizeX) + cls.map_ofs_x + 1/2)
          let y := wrap01 (cls.map_scale_y * (cand0.y / cfg.sizeY) + cls.map_ofs_x + 1/2)
          let v0 := env.mapValue cls.imgmap (1 - x) y
          let v : ℚ := if cls.map_invert then 255 - (v0 : ℚ) else (v0 : ℚ)
          let pr := prob1 * v / 256
          if pr < 1/1000000 then none else some pr
        else some prob1
      match imgStep with
      | none => (none, s1)
      | some prob2 =>
        let cand1 := env.rotAxis cand0 + cfg.seedOrigin
        let prob3 :=
          if cls.materials.length > 0 then
            match env.surfaceDescr cand1 (cfg.seedOrigin.z - cfg.sizeZ) with
            | some descr =>
              prob2 * (((cls.materials.find? fun m => descr.isPrefixOf m.1).map
                  (·.2)).getD cls.defaultProb)
            | none => prob2
          else prob2
        let (r, s2) := randomFloat s1
        if r > prob3 then (none, s2)
        else
          let cand2 :=
            if cls.floor then
              match env.floorTrace cand1 (cfg.seedOrigin.z - cfg.sizeZ) with
              | some endpos => endpos
              | none => cand1
            else { cand1 with z := cls.originZ }
          let zStep : Option ℚ :=
            if ¬cls.z_invert then
              if cand2.z < cls.z_min ∨ cand2.z > cls.z_max then none else some prob3
            else
              if cls.z_min < cand2.z ∧ cand2.z < cls.z_max then none
              else
                let p1 := if cls.z_fadein > 0 ∧ cand2.z < cls.z_min + cls.z_fadein
                  then prob3 * ((cls.z_min + cls.z_fadein - cand2.z) / cls.z_fadein)
                  else prob3
                some (if cls.z_fadeout > 0 ∧ cand2.z > cls.z_max - cls.z_fadeout
                  then p1 * ((cls.z_max - cand2.z) / cls.z_fadeout) else p1)
          match zStep with
          | none => (none, s2)
          | some prob4 =>
            if r > prob4 then (none, s2)
            else
              let (cand3, s3) :=
                if cls.sink_min ≠ 0 ∨ cls.sink_max ≠ 0 then
                  let (rs, s3) := randomFloat s2
                  (({ cand2 with
                      z := cand2.z - (cls.sink_min + rs * (cls.sink_max - cls.sink_min)) } : V3), s3)
                else (cand2, s2)
              let cand4 := cand3 + cls.offset
              let (rp, s4) := randomFloat s3
              let (ryw, s5) := randomFloat s4
              let (rrl, s6) := randomFloat s5
              let ang : AnglesQ :=
                ⟨cfg.rotateMin.pitch + rp * (cfg.rotateMax.pitch - cfg.rotateMin.pitch),
                 cfg.rotateMin.yaw + ryw * (cfg.rotateMax.yaw - cfg.rotateMin.yaw),
                 cfg.rotateMin.roll + rrl * (cfg.rotateMax.roll - cfg.rotateMin.roll)⟩
              if env.containsPoint cand4 then
                let (inhibited, s7) :=
                  if ¬cls.noinhibit then
                    inhibitLoop env cls cand4 ang cfg.inhibitors.enum false s6
                  else (false, s6)
                if inhibited then (none, s7)
                else
                  let us := useSpacing cfg.spacing cls.spacing
                  if cls.nocollide > 0 ∨ us > 0 then
                    if env.collides cand4 ang us ents then (none, s7)
                    else (some (cand4, ang), s7)
                  else (some (cand4, ang), s7)
              else (none, s6)

/-- The `while (tries++ < MAX_TRIES)` loop of line 1919 with the RNG
threaded: returns the accepted candidate (if any), the RNG state and the
final value of `tries`. -/
def placeTryLoop (env : PEnv) (cfg : PCfg) (cls : PClass) (i : Nat)
    (ents : List PInst) (t : Nat) (s : Nat) :
    Option (V3 × AnglesQ) × Nat × Nat :=
  if t < 8 then
    match attemptOnce env cfg cls i ents s with
    | (some res, s') => (some res, s', t + 1)
    | (none, s') => placeTryLoop env cfg cls i ents (t + 1) s'
  else (none, s, t + 1)
termination_by 8 - t

/-- Post-acceptance work of lines 2529-2567: random color per channel,
random skin pick, flag word `SEED_ENTITY_HIDDEN`, class index, and random
scale (axes-equal when `scale_min.x == 0`, else per-axis). -/
def finishInstance (cls : PClass) (i : Nat) (res : V3 × AnglesQ) (s : Nat) :
    PInst × Nat :=
  let (r1, s1) := randomFloat s
  let (r2, s2) := randomFloat s1
  let (r3, s3) := randomFloat s2
  let cdiff := cls.color_max - cls.color_min
  let color : V3 := ⟨cdiff.x * r1 + cls.color_min.x,
                     cdiff.y * r2 + cls.color_min.y,
                     cdiff.z * r3 + cls.color_min.z⟩
  let (rs, s4) := randomFloat s3
  let skinIdx := cls.skins.getD (truncQ (rs * (cls.skins.length : ℚ))).toNat 0
  let (scale, s5) :=
    if cls.scale_min.x = 0 then
      let (rf, s5) := randomFloat s4
      let f := rf * (cls.scale_max.z - cls.scale_min.z) + cls.scale_min.z
      ((⟨f, f, f⟩ : V3), s5)
    else
      let (sx, sa) := randomFloat s4
      let (sy, sb) := randomFloat sa
      let (sz, sc) := randomFloat sb
      let sdiff := cls.scale_max - cls.scale_min
      ((⟨sdiff.x * sx + cls.scale_min.x,
         sdiff.y * sy + cls.scale_min.y,
         sdiff.z * sz + cls.scale_min.z⟩ : V3), sc)
  ({ origin := res.1, angles := res.2, color := color, scale := scale,
     skinIdx := skinIdx, classIdx := i, flags := SEED_ENTITY_HIDDEN }, s5)

/-- The per-class entity loop of lines 1916-2574: for each requested
instance run the retry loop; line 2527 (`if (tries >= MAX_TRIES)
continue;`) skips the instance whenever `tries` reached 8 — including an
acceptance on the eighth attempt; an appended instance that reaches the
target count breaks out (line 2569). -/
def classLoop (env : PEnv) (cfg : PCfg) (cls : PClass) (i : Nat) :
    Nat → List PInst → Nat → List PInst × Nat
  | 0, ents, s => (ents, s)
  | j + 1, ents, s =>
    let (res, s1, tries) := placeTryLoop env cfg cls i ents 0 s
    if tries ≥ 8 then classLoop env cfg cls i j ents s1
    else match res with
      | none => classLoop env cfg cls i j ents s1
      | some r =>
        let (inst, s2) := finishInstance cls i r s1
        let ents' := ents ++ [inst]
        if ents'.length ≥ cfg.numEntities then (ents', s2)
        else classLoop env cfg cls i j ents' s2

/-- Placement of one class (lines 1896-2574): reset `m_iSeed` to the
class seed, compute the requested count (lines 1900-1908), run the entity
loop. -/
def classEntities (env : PEnv) (cfg : PCfg) (cls : PClass) (i : Nat)
    (ents : List PInst) : List PInst :=
  let iEntities : Nat :=
    if cls.maxEntities > 0 then cls.maxEntities.toNat else cls.numEntities.toNat
  (classLoop env cfg cls i iEntities ents cls.seed).1

/-- Per-class seed assignment of lines 1858-1862: every class gets
`RandomSeed()` from the sequencing generator. -/
def assignSeeds : List PClass → Nat → List PClass × Nat
  | [], s2 => ([], s2)
  | c :: rest, s2 =>
    let (v, s2') := randomSeed s2
    let (cs, s2'') := assignSeeds rest s2'
    ({ c with seed := v } :: cs, s2'')

/-- Swap of two positions of the class-index list (line 1871). -/
def listSwap (l : List Nat) (a b : Nat) : List Nat :=
  (l.set a (l.getD b 0)).set b (l.getD a 0)

/-- The shuffle of lines 1867-1872: `s` passes over the index list, each
drawing `second = (int)(RandomFloat() * s)` and swapping. -/
def shuffleLoop (count : Nat) (i : Nat) (idxl : List Nat) (s : Nat) :
    List Nat × Nat :=
  if i < count then
    let (rf, s') := randomFloat s
    let second := (truncQ (rf * (count : ℚ))).toNat
    shuffleLoop count (i + 1) (listSwap idxl i second) s'
  else (idxl, s)
termination_by count - i

/-- The main class loop of lines 1879-2575, iterating the shuffled class
order, skipping watch classes and stopping at the target count. -/
def mainLoop (env : PEnv) (cfg : PCfg) (classes : List PClass) :
    List Nat → List PInst → List PInst
  | [], ents => ents
  | i :: rest, ents =>
    if ents.length ≥ cfg.numEntities then ents
    else
      let cls := classes.getD i default
      if cls.watch then mainLoop env cfg classes rest ents
      else mainLoop env cfg classes rest (classEntities env cfg cls i ents)

/-- The watched-brethren pass of lines 2578-2616: for every watch class
append the instances found by the (deterministic) game-entity scan. -/
def watchAppend (env : PEnv) (classes : List PClass) (ents : List PInst) :
    List PInst :=
  (List.range classes.length).foldl
    (fun acc i =>
      if (classes.getD i default).watch then acc ++ env.watchEntities i else acc)
    ents

/-- Model of `Seed::PrepareEntities` (lines 1777-2623, without the final
`CombineEntities` call, which is the Combiner component): drop pseudo
classes (lines 1831-1854), assign per-class seeds and draw the shuffle
seed from the sequencing generator `m_iSeed_2` (lines 1856-1866), shuffle
the class order with the per-instance generator (lines 1867-1872), place
every class in shuffled order and append the watched brethren. Returns
the instance list and the final `m_iSeed_2`. -/
def prepareEntities (env : PEnv) (cfg : PCfg) (classes0 : List PClass)
    (s2 : Nat) : List PInst × Nat :=
  let classes1 := classes0.filter fun c => !c.pseudo
  let (classes, s2a) := assignSeeds classes1 s2
  let (seed0, s2b) := randomSeed s2a
  let (classIdx, _) := shuffleLoop classes.length 0 (List.range classes.length) seed0
  let ents := mainLoop env cfg classes classIdx []
  (watchAppend env classes ents, s2b)

/-- Distribution state relevant to re-derivation: the stored root seed
`m_iOrgSeed`, the working sequencing seed `m_iSeed_2` and the instance
table. -/
structure SeedSys where
  orgSeed : Nat
  seed2 : Nat
  entities : List PInst

/-- The first derivation in `Seed::Prepare` (lines 1703-1719): the root
seed is stored in `m_iOrgSeed` (line 1717) and `PrepareEntities` runs on
the working seed. -/
def sysPrepare (env : PEnv) (cfg : PCfg) (classes : List PClass)
    (randseed : Nat) : SeedSys :=
  let r := prepareEntities env cfg classes randseed
  { orgSeed := randseed, seed2 := r.2, entities := r.1 }

/-- The re-derivation path of `Seed::Think` (lines 3386-3397): cull
everything, reset `m_iSeed_2 = m_iOrgSeed` (line 3393) and run
`PrepareEntities` from scratch. -/
def sysRecompute (env : PEnv) (cfg : PCfg) (classes : List PClass)
    (st : SeedSys) : SeedSys :=
  let r := prepareEntities env cfg classes st.orgSeed
  { orgSeed := st.orgSeed, seed2 := r.2, entities := r.1 }

/-! ## Helper lemmas -/

theorem tryLoopTriesAux_le (accept : Nat → Bool) (fuel t : Nat) :
    tryLoopTriesAux accept fuel t ≤ t + fuel + 1 := by
  induction fuel generalizing t with
  | zero => simp [tryLoopTriesAux]
  | succ n ih =>
    simp only [tryLoopTriesAux]
    split
    · omega
    · have := ih (t + 1); omega

theorem tryLoopTriesAux_first (accept : Nat → Bool) (fuel t k : Nat)
    (h1 : t < k) (h2 : k ≤ t + fuel) (ha : accept k = true)
    (hmin : ∀ m, t < m → m < k → accept m = false) :
    tryLoopTriesAux accept fuel t = k := by
  induction fuel generalizing t with
  | zero => omega
  | succ n ih =>
    simp only [tryLoopTriesAux]
    by_cases hk : k = t + 1
    · subst hk; simp [ha]
    · have hf : accept (t + 1) = false := hmin (t + 1) (by omega) (by omega)
      simp only [hf, Bool.false_eq_true, if_false]
      exact ih (t + 1) (by omega) (by omega) (fun m hm1 hm2 => hmin m (by omega) hm2)

theorem tryLoopTriesAux_none (accept : Nat → Bool) (fuel t : Nat)
    (h : ∀ m, t < m → m ≤ t + fuel → accept m = false) :
    tryLoopTriesAux accept fuel t = t + fuel + 1 := by
  induction fuel generalizing t with
  | zero => simp [tryLoopTriesAux]
  | succ n ih =>
    have hf : accept (t + 1) = false := h (t + 1) (by omega) (by omega)
    simp only [tryLoopTriesAux, hf, Bool.false_eq_true, if_false]
    have := ih (t + 1) (fun m hm1 hm2 => h m (by omega) (by omega))
    omega

theorem sortDist_le_of_take_drop (l : List (Nat × ℚ)) (n : Nat)
    (a : Nat × ℚ) (ha : a ∈ (List.insertionSort (fun x y => x.2 ≤ y.2) l).take n)
    (b : Nat × ℚ) (hb : b ∈ (List.insertionSort (fun x y => x.2 ≤ y.2) l).drop n) :
    a.2 ≤ b.2 := by
  haveI : IsTotal (Nat × ℚ) (fun x y => x.2 ≤ y.2) := ⟨fun x y => le_total x.2 y.2⟩
  haveI : IsTrans (Nat × ℚ) (fun x y => x.2 ≤ y.2) := ⟨fun x y z h1 h2 => le_trans h1 h2⟩
  have hs := List.sorted_insertionSort (fun x y : Nat × ℚ => x.2 ≤ y.2) l
  rw [← List.take_append_drop n (List.insertionSort (fun x y : Nat × ℚ => x.2 ≤ y.2) l)] at hs
  exact (List.pairwise_append.mp hs).2.2 a ha b hb

/-! ## Claim theorems -/

/-- C1: the claim states that `Seed::CullEntity` on a spawned instance
sets `hidden` and clears only `exists`, preserving the exactly-one-of
`{hidden, exists}` invariant. Placement (`flags = SEED_ENTITY_HIDDEN`)
and `Seed::SpawnEntity` do maintain the invariant, but the cull update
`ent->flags &= (! SEED_ENTITY_EXISTS)` of line 3338 applies C logical
negation to a non-zero constant and therefore masks the flag word with
`0`, clearing every flag: after a cull neither `hidden` nor `exists` is
set, violating the invariant. -/
theorem seed_C1_cullEntity_clears_all_flags :
    exactlyOneHiddenExists placedFlags = true ∧
    exactlyOneHiddenExists (spawnedFlags placedFlags) = true ∧
    culledFlags (spawnedFlags placedFlags) = 0 ∧
    hasFlag (culledFlags (spawnedFlags placedFlags)) SEED_ENTITY_HIDDEN = false ∧
    exactlyOneHiddenExists (culledFlags (spawnedFlags placedFlags)) = false := by
  decide

/-- C2: for a fixed environment, configuration, class table and root
seed, the `Seed::Think` re-derivation path — which resets the working
sequencing seed `m_iSeed_2` to the stored root `m_iOrgSeed` before
re-running `PrepareEntities` from scratch — reproduces the instance list
of the original derivation exactly: same origins, angles, colors, scales
and skin indices in the same order. -/
theorem seed_C2_redistribution_deterministic (env : PEnv) (cfg : PCfg)
    (classes : List PClass) (randseed : Nat) :
    (sysRecompute env cfg classes (sysPrepare env cfg classes randseed)).entities
      = (sysPrepare env cfg classes randseed).entities := rfl

/-- C3 counterexample: the claim states the number of offset records of a
composite (seed record included) never exceeds `maxModelCount`. With
`maxModelCount = 1` and one merge candidate (two same-class, same-skin
instances 400 units apart, combine distance squared 250000), the
truncation guard `merged > maxModelCount` (line 2955) does not fire
(`merged = 1`), and the offsets list keeps 2 records — more than the
renderer maximum. -/
theorem seed_C3_capacity_counterexample :
    mergeCandidates [⟨3, 0, 0, ⟨0, 0, 0⟩⟩, ⟨3, 0, 0, ⟨400, 0, 0⟩⟩] 0 250000 false
      = [(1, 160000)] ∧
    (combineCapacity 0 [((1 : Nat), (160000 : ℚ))] 1).1.length = 2 ∧
    ¬ ((combineCapacity 0 [((1 : Nat), (160000 : ℚ))] 1).1.length ≤ 1) := by
  refine ⟨?_, by simp [combineCapacity], by simp [combineCapacity]⟩
  norm_num [mergeCandidates, distSq, List.range_succ]

/-- C3 amended: the offsets list of a composite holds `merged + 1`
records when `merged ≤ maxModelCount` (so it can reach
`maxModelCount + 1` — the capacity check compares only the candidate
count, not the record count including the seed) and exactly
`maxModelCount` records otherwise; whenever `merged > maxModelCount` the
kept records are a nearest-by-squared-distance selection — every kept
record is at most as far from the seed as every dropped one, kept and
dropped together are a permutation of all records — and the dropped
records are exactly those whose entities get their class index restored
for a later pass. -/
theorem seed_C3_capacity_amended (i : Nat) (cands : List (Nat × ℚ))
    (maxModelCount : Nat) :
    ((combineCapacity i cands maxModelCount).1.length
        = if cands.length > maxModelCount then maxModelCount else cands.length + 1) ∧
    (combineCapacity i cands maxModelCount).1.length ≤ maxModelCount + 1 ∧
    (cands.length > maxModelCount →
      (∀ a ∈ (combineCapacity i cands maxModelCount).1,
        ∀ b ∈ (List.insertionSort (fun x y => x.2 ≤ y.2)
            ((i, (0 : ℚ)) :: cands)).drop maxModelCount,
        a.2 ≤ b.2) ∧
      ((combineCapacity i cands maxModelCount).1 ++
        (List.insertionSort (fun x y => x.2 ≤ y.2)
            ((i, (0 : ℚ)) :: cands)).drop maxModelCount).Perm
        ((i, (0 : ℚ)) :: cands) ∧
      (combineCapacity i cands maxModelCount).2
        = ((List.insertionSort (fun x y => x.2 ≤ y.2)
            ((i, (0 : ℚ)) :: cands)).drop maxModelCount).map (·.1)) := by
  have hlen : (List.insertionSort (fun x y : Nat × ℚ => x.2 ≤ y.2)
      ((i, (0 : ℚ)) :: cands)).length = cands.length + 1 := by
    have := (List.perm_insertionSort (fun x y : Nat × ℚ => x.2 ≤ y.2)
      ((i, (0 : ℚ)) :: cands)).length_eq
    simpa using this
  by_cases h : cands.length > maxModelCount
  · refine ⟨?_, ?_, fun _ => ⟨?_, ?_, ?_⟩⟩
    · simp only [combineCapacity, h, if_true, List.length_take, hlen]
      omega
    · simp only [combineCapacity, h, if_true, List.length_take, hlen]
      omega
    · intro a ha b hb
      simp only [combineCapacity, h, if_true] at ha
      exact sortDist_le_of_take_drop _ _ a ha b hb
    · simp only [combineCapacity, h, if_true]
      rw [List.take_append_drop]
      exact List.perm_insertionSort _ _
    · simp only [combineCapacity, h, if_true]
  · refine ⟨?_, ?_, fun hc => absurd hc h⟩
    · simp only [combineCapacity, h, if_false]
      simp
    · simp only [combineCapacity, h, if_false]
      simp only [List.length_cons]
      omega

/-- C3 witness for the amended theorem: with two candidates and capacity
1, exactly one record (the seed's zero-offset record, nearest) is kept
and the two candidate entities are restored, farthest first. -/
theorem seed_C3_capacity_amended_witness :
    (combineCapacity 0 [((1 : Nat), (100 : ℚ)), ((2 : Nat), (4 : ℚ))] 1).1.length = 1 ∧
    (combineCapacity 0 [((1 : Nat), (100 : ℚ)), ((2 : Nat), (4 : ℚ))] 1).2 = [2, 1] := by
  have h := seed_C3_capacity_amended 0 [((1 : Nat), (100 : ℚ)), ((2 : Nat), (4 : ℚ))] 1
  refine ⟨by simpa using h.1, ?_⟩
  have h3 := (h.2.2 (by norm_num)).2.2
  rw [h3]
  norm_num [List.insertionSort, List.orderedInsert]

/-- C4 counterexample: the claim lists `function` among the six
recognized falloff names. `Seed::ParseFalloff` compares against the
string `"func"` (line 759); the input `"function"` matches none of the
comparisons and falls into the invalid-name branch, returning the `none`
falloff with a diagnostic, while `"func"` is accepted silently. -/
theorem seed_C4_function_name_counterexample :
    parseFalloff "function" 5 = (0, none, true) ∧
    parseFalloff "func" 5 = (5, none, false) ∧
    "function" ∉ falloffNames := by
  decide

/-- C4 amended: the falloff parser recognizes exactly the six names
`none`, `cutoff`, `power`, `root`, `linear` and `func` (not `function`);
for `power` and `root` a shape factor below 2 is clamped to 2 with a
diagnostic; any unrecognized name yields the `none` falloff with a
diagnostic. -/
theorem seed_C4_parseFalloff_amended (s : String) (a : ℚ) :
    parseFalloff "none" a = (0, none, false) ∧
    parseFalloff "cutoff" a = (1, none, false) ∧
    parseFalloff "linear" a = (4, none, false) ∧
    parseFalloff "func" a = (5, none, false) ∧
    (2 ≤ a → parseFalloff "power" a = (2, some a, false) ∧
             parseFalloff "root" a = (3, some a, false)) ∧
    (a < 2 → parseFalloff "power" a = (2, some 2, true) ∧
             parseFalloff "root" a = (3, some 2, true)) ∧
    (s ∉ falloffNames → parseFalloff s a = (0, none, true)) := by
  refine ⟨by simp [parseFalloff], by simp [parseFalloff], by simp [parseFalloff],
          by simp [parseFalloff], ?_, ?_, ?_⟩
  · intro h
    constructor <;> simp [parseFalloff, not_lt.mpr h]
  · intro h
    constructor <;> simp [parseFalloff, h]
  · intro h
    simp only [falloffNames, List.mem_cons, List.not_mem_nil, or_false] at h
    push_neg at h
    obtain ⟨h1, h2, h3, h4, h5, h6⟩ := h
    simp [parseFalloff, h1, h2, h3, h4, h5, h6]

/-- C4 witness for the amended theorem: an unrecognized name at a
concrete input, and the clamp branch at a concrete shape factor. -/
theorem seed_C4_parseFalloff_amended_witness :
    parseFalloff "bogus" 3 = (0, none, true) ∧
    parseFalloff "power" 1 = (2, some 2, true) :=
  ⟨(seed_C4_parseFalloff_amended "bogus" 3).2.2.2.2.2.2 (by decide),
   ((seed_C4_parseFalloff_amended "x" 1).2.2.2.2.2.1 (by norm_num)).1⟩

/-- C5: the claim states the density correction divisor of the
per-class average footprint is at least a small positive epsilon both
with and without a density image. With an image the computed mean is
clamped to at least `0.001` (lines 1142-1147) and the divisor is
positive, but without one `fImgDensity` keeps its initial `0.0` from
line 800, so the divisor `fBaseDensity * fImgDensity * fDensity` of line
1376 is exactly zero — the division the clamp comment ("avoid
divide-by-zero") is meant to protect has a zero divisor for every class
with no `seed_map` spawnarg. -/
theorem seed_C5_no_image_divisor_zero :
    fImgDensityFinal false 0 = 0 ∧
    avgSizeDivisor false 0 1 1 = 0 ∧
    ¬ ((1 : ℚ)/1000000 ≤ avgSizeDivisor false 0 1 1) ∧
    avgSizeDivisor true (1/2) 1 1 = 1/2 ∧
    (1 : ℚ)/1000000 ≤ avgSizeDivisor true (1/2) 1 1 := by
  norm_num [avgSizeDivisor, fImgDensityFinal, densityClamp]

/-- C6 counterexample: the claim reads as "at most 8 attempts; the
instance is skipped when all 8 are rejected; an accepted attempt
terminates the loop early (and the instance is recorded)". Take the
outcome sequence that rejects attempts 1-7 and accepts attempt 8: the
loop does break at the accepted attempt, leaving `tries = 8`, but the
post-loop skip `if (tries >= MAX_TRIES) continue;` (line 2527) then
fires, so the successfully placed instance is discarded — the skip is
not limited to the all-rejected case. -/
theorem seed_C6_eighth_attempt_discarded :
    (fun k : Nat => k == 8) 8 = true ∧
    tryLoopTries (fun k : Nat => k == 8) = 8 ∧
    tryLoopPlaced (fun k : Nat => k == 8) = false := by
  decide

/-- C6 amended: the placement loop makes at most 8 candidate attempts
(the final `tries` value is at most 9, incremented once per attempt plus
the final condition check); the first accepted attempt terminates the
loop at exactly that attempt; if all 8 attempts are rejected the final
value is 9 and the instance is silently skipped; but the instance is
actually recorded iff some attempt among the first 7 is accepted — an
acceptance on the 8th attempt is discarded by the post-loop skip exactly
like a full rejection. -/
theorem seed_C6_retry_budget_amended (accept : Nat → Bool) :
    tryLoopTries accept ≤ 9 ∧
    ((∀ k, 1 ≤ k → k ≤ 8 → accept k = false) → tryLoopTries accept = 9) ∧
    (∀ k, 1 ≤ k → k ≤ 8 → accept k = true →
      (∀ m, 1 ≤ m → m < k → accept m = false) → tryLoopTries accept = k) ∧
    (tryLoopPlaced accept = true ↔ ∃ k, 1 ≤ k ∧ k ≤ 7 ∧ accept k = true) := by
  refine ⟨?_, ?_, ?_, ?_⟩
  · simpa [tryLoopTries] using tryLoopTriesAux_le accept 8 0
  · intro h
    simpa [tryLoopTries] using
      tryLoopTriesAux_none accept 8 0 (fun m hm1 hm2 => h m hm1 (by omega))
  · intro k h1 h2 ha hmin
    exact tryLoopTriesAux_first accept 8 0 k h1 (by omega) ha
      (fun m hm1 hm2 => hmin m hm1 hm2)
  · have hplaced : tryLoopPlaced accept = true ↔ tryLoopTries accept < 8 := by
      simp [tryLoopPlaced]
    constructor
    · intro hp
      rw [hplaced] at hp
      by_contra hno
      push_neg at hno
      have hfalse : ∀ k, 1 ≤ k → k ≤ 7 → accept k = false := by
        intro k hk1 hk7
        cases hak : accept k with
        | false => rfl
        | true => exact absurd hak (hno k hk1 hk7)
      cases hak8 : accept 8 with
      | true =>
        have h8 : tryLoopTries accept = 8 :=
          tryLoopTriesAux_first accept 8 0 8 (by omega) (by omega) hak8
            (fun m hm1 hm2 => hfalse m hm1 (by omega))
        omega
      | false =>
        have h9 : tryLoopTries accept = 9 := by
          have := tryLoopTriesAux_none accept 8 0
            (fun m hm1 hm2 => by
              rcases Nat.lt_or_ge m 8 with hm | hm
              · exact hfalse m hm1 (by omega)
              · have hm8 : m = 8 := by omega
                rw [hm8]; exact hak8)
          simpa [tryLoopTries] using this
        omega
    · rintro ⟨k, hk1, hk7, hka⟩
      have hex : ∃ n, 1 ≤ n ∧ n ≤ 7 ∧ accept n = true := ⟨k, hk1, hk7, hka⟩
      obtain ⟨hf1, hf7, hfa⟩ := Nat.find_spec hex
      have heq : tryLoopTries accept = Nat.find hex :=
        tryLoopTriesAux_first accept 8 0 (Nat.find hex) hf1 (by omega) hfa
          (fun m hm1 hm2 => by
            by_contra hc
            rw [Bool.not_eq_false] at hc
            exact Nat.find_min hex hm2 ⟨hm1, by omega, hc⟩)
      rw [hplaced, heq]
      omega

/-- C6 witness for the amended theorem: acceptance on attempt 3 places
the instance with `tries = 3`. -/
theorem seed_C6_retry_budget_amended_witness :
    tryLoopTries (fun k : Nat => k == 3) = 3 ∧
    tryLoopPlaced (fun k : Nat => k == 3) = true := by
  refine ⟨?_, ?_⟩
  · exact (seed_C6_retry_budget_amended (fun k : Nat => k == 3)).2.2.1 3
      (by decide) (by decide) (by decide)
      (fun m h1 h2 => by
        have : m ≠ 3 := by omega
        simp [this])
  · exact ((seed_C6_retry_budget_amended (fun k : Nat => k == 3)).2.2.2).mpr
      ⟨3, by decide, by decide, by decide⟩

/-- C7: the claim states the bunching neighbor is an already-placed
instance of the same class. The code builds the same-class index list
`BunchEntities` (lines 1944-1951) but then indexes the full entity list
with the drawn position (`m_Entities[ bunchTarget ]`, line 1965) instead
of `BunchEntities[ bunchTarget ]`. With one placed instance of class 0
and class 1 being placed, the same-class list is empty, yet the code
takes `m_Entities[0]` — a class-0 neighbor; with placed classes
`[0, 1]` and class 1 being placed at draw `0`, the same-class list is
`[1]` but the code again takes `m_Entities[0]` of class 0. -/
theorem seed_C7_bunch_neighbor_wrong_class :
    bunchEntities [0] 1 = [] ∧
    bunchNeighborClass [0] 1 0 = 0 ∧
    bunchEntities [0, 1] 1 = [1] ∧
    bunchNeighborClass [0, 1] 1 0 = 0 ∧
    (0 : Int) ≠ 1 := by
  refine ⟨?_, ?_, ?_, ?_, by decide⟩ <;>
    norm_num [bunchEntities, bunchNeighborClass, bunchTarget, truncQ,
      List.range_succ]

/-- C8: two non-pseudo, non-watch classes with scores 1 and 3 under an
overall cap of 40 (no per-class cap, neutral quality bias 1.0, so the
`lod_scaling_limit` rescale of line 1456 multiplies by exactly 1):
the score-proportional allocation `max(1, (40 * score) / 4)` assigns 10
and 30 instances, each at least 1, and the final overall target is the
cap 40 itself (line 1508). -/
theorem seed_C8_score_allocation :
    computeEntityCount 1 true 1 10 10 40 10
        [⟨1, false, false, 0, 1⟩, ⟨3, false, false, 0, 1⟩]
      = ([some 10, some 30], 40) ∧
    (10 : Int) ≥ 1 ∧ (30 : Int) ≥ 1 := by
  refine ⟨?_, by norm_num, by norm_num⟩
  norm_num [computeEntityCount, classNewNum, lodBIAS, truncQ]
  decide

/-- C9 counterexample: the claim states both checks expand by the larger
of the class spacing and the distribution-wide spacing. The code
(lines 2472-2476) lets a non-zero class spacing replace the
distribution-wide value: with distribution spacing 10 and class spacing
5 the expansion is 5, not `max 10 5 = 10`. -/
theorem seed_C9_spacing_override_counterexample :
    useSpacing 10 5 = 5 ∧
    max (10 : ℚ) 5 = 10 ∧
    useSpacing 10 5 ≠ max (10 : ℚ) 5 := by
  refine ⟨?_, ?_, ?_⟩ <;> norm_num [useSpacing]

/-- C9 amended: the expansion distance is the class's spacing whenever
that is non-zero and the distribution-wide spacing otherwise (an
override, not a maximum); the rejection scan walks all previously
accepted instances, consulting the precise oriented-box test only for
instances whose expanded axis-aligned bounds intersect, and the
candidate is rejected exactly when some earlier instance passes both
tests. -/
theorem seed_C9_spacing_amended (spacing classSpacing : ℚ)
    (boundsHit boxHit : Nat → Bool) (ks : List Nat) :
    (classSpacing ≠ 0 → useSpacing spacing classSpacing = classSpacing) ∧
    (classSpacing = 0 → useSpacing spacing classSpacing = spacing) ∧
    (spacingCollides boundsHit boxHit ks = true ↔
      ∃ k ∈ ks, boundsHit k = true ∧ boxHit k = true) := by
  refine ⟨fun h => by simp [useSpacing, h], fun h => by simp [useSpacing, h], ?_⟩
  induction ks with
  | nil => simp [spacingCollides]
  | cons k rest ih =>
    simp only [spacingCollides]
    rcases hbd : boundsHit k with hb | hb
    · simp only [Bool.false_eq_true, if_false, ih, List.mem_cons]
      constructor
      · rintro ⟨m, hm, h1, h2⟩; exact ⟨m, Or.inr hm, h1, h2⟩
      · rintro ⟨m, hm | hm, h1, h2⟩
        · subst hm; rw [hbd] at h1; exact absurd h1 (by simp)
        · exact ⟨m, hm, h1, h2⟩
    · rcases hbx : boxHit k with hx | hx
      · simp only [Bool.false_eq_true, if_false, if_true, ih, List.mem_cons]
        constructor
        · rintro ⟨m, hm, h1, h2⟩; exact ⟨m, Or.inr hm, h1, h2⟩
        · rintro ⟨m, hm | hm, h1, h2⟩
          · subst hm; rw [hbx] at h2; exact absurd h2 (by simp)
          · exact ⟨m, hm, h1, h2⟩
      · simp only [if_true, true_iff]
        exact ⟨k, List.mem_cons_self k rest, hbd, hbx⟩

/-- C9 witness for the amended theorem: concrete override and a concrete
rejected candidate. -/
theorem seed_C9_spacing_amended_witness :
    useSpacing 10 5 = 5 ∧
    spacingCollides (fun _ => true) (fun _ => true) [0] = true :=
  ⟨(seed_C9_spacing_amended 10 5 (fun _ => true) (fun _ => true) [0]).1 (by norm_num),
   ((seed_C9_spacing_amended 10 5 (fun _ => true) (fun _ => true) [0]).2.2).mpr
     ⟨0, by decide, rfl, rfl⟩⟩

/-- C10: culling a spawned instance captures the live object's current
origin and axis angles into the instance record (lines 3311-3312) before
destroying it, and re-spawning instantiates the live object at the
record's origin and angles (lines 3118 and 3153); so when the live
object has not moved since its spawn, the re-spawned live object carries
the same origin and orientation as before the cull. -/
theorem seed_C10_cull_respawn_transform (r : ERec) (n : Nat) (l : Live)
    (h : l = spawnLive r) :
    spawnLive (cullRecUpd (spawnRecUpd r n) l) = l := by
  cases h
  rfl

/-- C10 witness: concrete record and live transform. -/
theorem seed_C10_cull_respawn_transform_witness :
    spawnLive (cullRecUpd (spawnRecUpd ⟨⟨1, 2, 3⟩, ⟨4, 5, 6⟩, placedFlags, 0⟩ 7)
        (spawnLive ⟨⟨1, 2, 3⟩, ⟨4, 5, 6⟩, placedFlags, 0⟩))
      = spawnLive ⟨⟨1, 2, 3⟩, ⟨4, 5, 6⟩, placedFlags, 0⟩ :=
  seed_C10_cull_respawn_transform ⟨⟨1, 2, 3⟩, ⟨4, 5, 6⟩, placedFlags, 0⟩ 7
    (spawnLive ⟨⟨1, 2, 3⟩, ⟨4, 5, 6⟩, placedFlags, 0⟩) rfl

end Seed
